import Mathlib

/-!
Verification of the kubac CLI (cloudcwfranck/kubac) against its
natural-language specification.

The development shallowly embeds the Go sources:
* `internal/config/config.go` — the configuration data model, its default
  factory, and load/save round-trip;
* `internal/install/installer.go` — the install sequencer (direct and
  gitops modes), namespace creation, deployment readiness polling, and
  uninstall;
* the `verify` package — the four probes (`pod-selfheal`, `hpa-scale`,
  `policy-deny`, `network-deny`), `RunAll`, the summary computation and
  `AllPassed`.

Cluster interactions (the Remote State Accessor) are modelled as explicit
environment records of `Except String`-valued functions; the poll loop is
modelled attempt-indexed with the ideal attempt budget
`timeout / interval + 1` of `wait.PollImmediate`.  Statuses are plain
strings, as in the Go code.
-/

namespace Kubac

/-! ## Data model: test results (verify package) -/

/-- `TestResult` from the verify package: name, status string
("PASS"/"FAIL"/"WARN"/"SKIP"), and human-readable message.  The Go struct
also carries `Duration` and `Timestamp`, wall-clock metadata irrelevant to
the verified properties. -/
structure TestResult where
  name : String
  status : String
  message : String
  deriving Repr, DecidableEq

/-- `Summary` from the verify package. -/
structure Summary where
  total : Nat
  passed : Nat
  failed : Nat
  deriving Repr, DecidableEq

/-- `VerificationResults` from the verify package (timestamp omitted). -/
structure VerificationResults where
  tests : List TestResult
  summary : Summary
  deriving Repr, DecidableEq

/-- `VerificationResults.AllPassed`: true iff `Summary.Failed == 0`. -/
def allPassed (r : VerificationResults) : Bool :=
  r.summary.failed == 0

/-! ## The condition poller (`wait.PollImmediate`)

The Go code calls `wait.PollImmediate(interval, timeout, cond)` where
`cond` returns `(done bool, err error)`.  Semantics: evaluate `cond`
immediately and then once per `interval` tick until `timeout` elapses; an
error from `cond` aborts with that error, `done == true` succeeds,
otherwise polling continues and timeout yields `ErrWaitTimeout`.  We model
attempts as indexed 1, 2, … with the ideal attempt budget
`timeout / interval + 1`. -/

/-- Outcome of a poll: success, timeout (`ErrWaitTimeout`), or an error
returned by the condition itself. -/
inductive PollResult where
  | success
  | timedOut
  | condErr (e : String)
  deriving Repr, DecidableEq

/-- The poll loop: `att` is the 1-based index of the next attempt, the
second argument the remaining attempt budget.  Error from the condition is
checked first, as in `wait.WaitFor`. -/
def pollAttempts (cond : Nat → Bool × Option String) : Nat → Nat → PollResult
  | _, 0 => .timedOut
  | att, fuel + 1 =>
    match cond att with
    | (_, some e) => .condErr e
    | (true, none) => .success
    | (false, none) => pollAttempts cond (att + 1) fuel

/-- `wait.PollImmediate interval timeout cond`, attempt-indexed. -/
def pollImmediate (interval timeout : Nat) (cond : Nat → Bool × Option String) : PollResult :=
  pollAttempts cond 1 (timeout / interval + 1)

/-! ## Deployments and readiness -/

/-- The slice of a Kubernetes Deployment the code reads:
`Status.ReadyReplicas` and `*Spec.Replicas` (both int32; the code only
compares them, so `Nat` suffices). -/
structure Deployment where
  readyReplicas : Nat
  specReplicas : Nat
  deriving Repr, DecidableEq

/-- `Installer.waitForDeployment`: polls every 5s until the deployment's
ready replicas equal its spec replicas; a `Get` error is swallowed
(`return false, nil`).  `getDep` is the attempt-indexed accessor. -/
def waitForDeployment (getDep : Nat → Except String Deployment) (timeout : Nat) : PollResult :=
  pollImmediate 5 timeout (fun att =>
    match getDep att with
    | .error _ => (false, none)
    | .ok d => (d.readyReplicas == d.specReplicas, none))

/-! ## The four probes -/

/-- Environment of `Verifier.testPodSelfHeal`: the initial deployment
`Get`, the `app=demo` pod list (names), the pod `Delete`, and the
attempt-indexed deployment `Get` used during polling. -/
structure SelfHealEnv where
  getDeployment : Except String Deployment
  listPods : Except String (List String)
  deletePod : String → Except String Unit
  getDeploymentPoll : Nat → Except String Deployment

/-- `Verifier.testPodSelfHeal`, translated branch for branch: SKIP when the
demo deployment cannot be fetched; FAIL when no pod is found or the delete
fails; then poll (interval 5s, timeout 60s) for `readyReplicas` to return
to at least the baseline, with `Get` errors swallowed; FAIL on timeout,
PASS naming the deleted pod on success. -/
def testPodSelfHeal (env : SelfHealEnv) : TestResult :=
  match env.getDeployment with
  | .error e => ⟨"pod-selfheal", "SKIP", "Demo app not deployed: " ++ e⟩
  | .ok dep =>
    let initialReplicas := dep.readyReplicas
    match env.listPods with
    | .error _ => ⟨"pod-selfheal", "FAIL", "No demo pods found"⟩
    | .ok [] => ⟨"pod-selfheal", "FAIL", "No demo pods found"⟩
    | .ok (podName :: _) =>
      match env.deletePod podName with
      | .error e => ⟨"pod-selfheal", "FAIL", "Failed to delete pod: " ++ e⟩
      | .ok _ =>
        match pollImmediate 5 60 (fun att =>
            match env.getDeploymentPoll att with
            | .error _ => (false, none)
            | .ok d => (initialReplicas ≤ d.readyReplicas, none)) with
        | .success => ⟨"pod-selfheal", "PASS", "Pod " ++ podName ++ " was replaced successfully"⟩
        | _ => ⟨"pod-selfheal", "FAIL", "Pod was not replaced within timeout"⟩

/-- The slice of a HorizontalPodAutoscaler the code reads. -/
structure HPA where
  minReplicas : Option Int
  maxReplicas : Int
  currentReplicas : Int
  deriving Repr, DecidableEq

/-- Environment of `Verifier.testHPAScale`: the HPA `Get`. -/
structure HPAEnv where
  getHPA : Except String HPA

/-- The `demo.hpa` section of the configuration that the probe compares
against (full configuration model below). -/
structure HPASpec where
  minReplicas : Int
  maxReplicas : Int
  targetCPUUtilization : Int
  deriving Repr, DecidableEq

/-- `Verifier.testHPAScale`: SKIP when the HPA is absent, FAIL on a
min/max replica mismatch with the configuration, PASS echoing observed
values otherwise. -/
def testHPAScale (spec : HPASpec) (env : HPAEnv) : TestResult :=
  match env.getHPA with
  | .error e => ⟨"hpa-scale", "SKIP", "HPA not found: " ++ e⟩
  | .ok hpa =>
    match hpa.minReplicas with
    | none => ⟨"hpa-scale", "FAIL", "HPA minReplicas mismatch"⟩
    | some minR =>
      if minR ≠ spec.minReplicas then
        ⟨"hpa-scale", "FAIL", "HPA minReplicas mismatch"⟩
      else if hpa.maxReplicas ≠ spec.maxReplicas then
        ⟨"hpa-scale", "FAIL", "HPA maxReplicas mismatch"⟩
      else
        ⟨"hpa-scale", "PASS", "HPA configured correctly (current replicas: "
          ++ toString hpa.currentReplicas ++ ", min: " ++ toString minR
          ++ ", max: " ++ toString hpa.maxReplicas ++ ")"⟩

/-- Environment of `Verifier.testPolicyDeny`: the result of attempting to
create the privileged test pod.  (On successful creation the code also
issues a best-effort cleanup delete whose result is ignored; it has no
bearing on the returned result.) -/
structure PolicyEnv where
  createPod : Except String Unit

/-- `Verifier.testPolicyDeny`, translated as written: a *successful*
creation is FAIL; *any* error from the create call — the code never
inspects it — is PASS with a fixed message. -/
def testPolicyDeny (env : PolicyEnv) : TestResult :=
  match env.createPod with
  | .ok _ => ⟨"policy-deny", "FAIL", "Privileged pod was not denied by policy"⟩
  | .error _ => ⟨"policy-deny", "PASS", "Privileged pod was correctly denied by policy"⟩

/-- The slice of a NetworkPolicy the code reads: the lengths of its
ingress and egress rule lists. -/
structure NetPol where
  ingressLen : Nat
  egressLen : Nat
  deriving Repr, DecidableEq

/-- Environment of `Verifier.testNetworkDeny`: the NetworkPolicy `List`. -/
structure NetpolEnv where
  listNetPols : Except String (List NetPol)

/-- `Verifier.testNetworkDeny`: SKIP when listing fails, FAIL when no
policies exist, WARN when none is a default-deny (empty ingress and
egress), PASS otherwise. -/
def testNetworkDeny (env : NetpolEnv) : TestResult :=
  match env.listNetPols with
  | .error e => ⟨"network-deny", "SKIP", "Cannot list network policies: " ++ e⟩
  | .ok items =>
    if items.length = 0 then
      ⟨"network-deny", "FAIL", "No network policies found"⟩
    else
      let hasDefaultDeny := items.any (fun np => np.ingressLen == 0 && np.egressLen == 0)
      if !hasDefaultDeny then
        ⟨"network-deny", "WARN", "Found " ++ toString items.length
          ++ " network policies but no default deny"⟩
      else
        ⟨"network-deny", "PASS", "Network policies configured (" ++ toString items.length
          ++ " policies including default deny)"⟩

/-! ## RunAll and the summary -/

/-- The verifier: its configured `demo.hpa` expectations and test list,
plus one environment per probe standing for the cluster client. -/
structure Verifier where
  hpaSpec : HPASpec
  selfHeal : SelfHealEnv
  hpa : HPAEnv
  policy : PolicyEnv
  netpol : NetpolEnv

/-- One iteration of the `switch testName` dispatch in
`Verifier.RunAll`; unrecognised names yield SKIP "Unknown test". -/
def runOne (v : Verifier) (testName : String) : TestResult :=
  if testName = "pod-selfheal" then testPodSelfHeal v.selfHeal
  else if testName = "hpa-scale" then testHPAScale v.hpaSpec v.hpa
  else if testName = "policy-deny" then testPolicyDeny v.policy
  else if testName = "network-deny" then testNetworkDeny v.netpol
  else ⟨testName, "SKIP", "Unknown test"⟩

/-- The result-accumulating loop of `Verifier.RunAll`: one append per
configured test name, in order. -/
def runTests (v : Verifier) (names : List String) : List TestResult :=
  names.foldl (fun acc n => acc ++ [runOne v n]) []

/-- One iteration of the summary loop in `Verifier.RunAll`: increment
`Passed` on "PASS", `Failed` on "FAIL", leave WARN and SKIP uncounted. -/
def summaryStep (s : Summary) (t : TestResult) : Summary :=
  if t.status = "PASS" then { s with passed := s.passed + 1 }
  else if t.status = "FAIL" then { s with failed := s.failed + 1 }
  else s

/-- The summary computation in `Verifier.RunAll`: `Total` is the length of
the result list; the loop then runs `summaryStep` over every result. -/
def calcSummary (ts : List TestResult) : Summary :=
  ts.foldl summaryStep { total := ts.length, passed := 0, failed := 0 }

/-- `Verifier.RunAll` over the configured test list (`v.config.Verify.Tests`
is passed explicitly as `names`). -/
def runAll (v : Verifier) (names : List String) : VerificationResults :=
  let tests := runTests v names
  { tests := tests, summary := calcSummary tests }

/-! ## Configuration data model (`internal/config/config.go`)

Field names follow the yaml tags of the Go structs.  Go `int` fields are
modelled as `Int` (the configuration values are small; no arithmetic is
performed on them). -/

/-- `GitOpsConfig`. -/
structure GitOpsConfig where
  provider : String
  repoURL : String
  branch : String
  path : String
  deriving Repr, DecidableEq

/-- `ComponentConfig`. -/
structure ComponentConfig where
  enabled : Bool
  version : String
  deriving Repr, DecidableEq

/-- `IngressConfig`. -/
structure IngressConfig where
  enabled : Bool
  provider : String
  version : String
  deriving Repr, DecidableEq

/-- `PlatformConfig`. -/
structure PlatformConfig where
  metricsServer : ComponentConfig
  kubeStateMetrics : ComponentConfig
  prometheusStack : ComponentConfig
  ingress : IngressConfig
  certManager : ComponentConfig
  deriving Repr, DecidableEq

/-- `PolicyConfig`. -/
structure PolicyConfig where
  enabled : Bool
  provider : String
  version : String
  podSecurityStandard : String
  customPolicies : List String
  deriving Repr, DecidableEq

/-- `NetworkPolicy` (the config section, not the cluster resource). -/
structure NetworkPolicyConfig where
  enabled : Bool
  defaultDeny : Bool
  systemNamespaces : List String
  deriving Repr, DecidableEq

/-- `HPAConfig` (the autoscaling toggle). -/
structure HPAConfig where
  enabled : Bool
  deriving Repr, DecidableEq

/-- `NodeAutoscalerConfig`. -/
structure NodeAutoscalerConfig where
  enabled : Bool
  provider : String
  version : String
  deriving Repr, DecidableEq

/-- `AutoscalingConfig`. -/
structure AutoscalingConfig where
  hpa : HPAConfig
  nodeAutoscaler : NodeAutoscalerConfig
  deriving Repr, DecidableEq

/-- `ResourceList`. -/
structure ResourceList where
  cpu : String
  memory : String
  deriving Repr, DecidableEq

/-- `ResourcesSpec`. -/
structure ResourcesSpec where
  requests : ResourceList
  limits : ResourceList
  deriving Repr, DecidableEq

/-- `PDBSpec`. -/
structure PDBSpec where
  minAvailable : Int
  deriving Repr, DecidableEq

/-- `DemoConfig`.  Its `hpa` section is the `HPASpec` defined above.  The
field with yaml tag "namespace" is called `nspace` here because
`namespace` is a Lean keyword. -/
structure DemoConfig where
  nspace : String
  replicas : Int
  resources : ResourcesSpec
  hpa : HPASpec
  pdb : PDBSpec
  deriving Repr, DecidableEq

/-- `VerifyConfig`. -/
structure VerifyConfig where
  timeout : String
  parallel : Bool
  tests : List String
  deriving Repr, DecidableEq

/-- `Config`, the root configuration object. -/
structure Config where
  clusterProfile : String
  mode : String
  gitops : GitOpsConfig
  platform : PlatformConfig
  policy : PolicyConfig
  networkPolicy : NetworkPolicyConfig
  autoscaling : AutoscalingConfig
  demo : DemoConfig
  verify : VerifyConfig
  deriving Repr, DecidableEq

/-- `DefaultConfig(profile, mode)`, the default-configuration factory. -/
def defaultConfig (profile mode : String) : Config :=
  { clusterProfile := profile
    mode := mode
    gitops :=
      { provider := "flux", repoURL := "", branch := "main", path := "clusters/my-cluster" }
    platform :=
      { metricsServer := { enabled := true, version := "v0.7.0" }
        kubeStateMetrics := { enabled := true, version := "v2.10.1" }
        prometheusStack := { enabled := false, version := "v55.5.0" }
        ingress := { enabled := false, provider := "nginx", version := "v1.9.5" }
        certManager := { enabled := false, version := "v1.13.3" } }
    policy :=
      { enabled := true, provider := "kyverno", version := "v1.11.4"
        podSecurityStandard := "restricted"
        customPolicies := ["require-non-root-user", "require-ro-rootfs", "disallow-privileged"] }
    networkPolicy :=
      { enabled := true, defaultDeny := true
        systemNamespaces := ["kube-system", "kube-public", "kubac-system"] }
    autoscaling :=
      { hpa := { enabled := true }
        nodeAutoscaler := { enabled := false, provider := "cluster-autoscaler", version := "v1.29.0" } }
    demo :=
      { nspace := "kubac-demo", replicas := 2
        resources :=
          { requests := { cpu := "100m", memory := "128Mi" }
            limits := { cpu := "200m", memory := "256Mi" } }
        hpa := { minReplicas := 2, maxReplicas := 10, targetCPUUtilization := 50 }
        pdb := { minAvailable := 1 } }
    verify :=
      { timeout := "300s", parallel := true
        tests := ["pod-selfheal", "hpa-scale", "policy-deny", "network-deny"] } }

/-! ## YAML marshalling and the config round-trip

`WriteConfig` is `yaml.Marshal` + `os.WriteFile`; `LoadConfig` is
`os.ReadFile` + `yaml.Unmarshal`.  The yaml.v3 library (an external
collaborator) is modelled at the node-tree level: marshalling builds a
mapping node keyed by the structs' yaml tags, unmarshalling looks fields
up by tag and leaves Go zero values for anything missing or mistyped
(yaml.v3's behaviour for absent keys).  The filesystem is a map from
paths to stored documents. -/

/-- A YAML node: scalar string/int/bool, sequence, or mapping. -/
inductive YVal where
  | s (v : String)
  | i (v : Int)
  | b (v : Bool)
  | l (v : List YVal)
  | m (v : List (String × YVal))

/-- Look a key up in a mapping node's field list. -/
def yLookup (fields : List (String × YVal)) (key : String) : Option YVal :=
  (fields.find? (fun kv => kv.1 == key)).map (·.2)

/-- Decode a string field; Go zero value `""` when absent or mistyped. -/
def yStr : Option YVal → String
  | some (.s v) => v
  | _ => ""

/-- Decode an int field; Go zero value `0` when absent or mistyped. -/
def yInt : Option YVal → Int
  | some (.i v) => v
  | _ => 0

/-- Decode a bool field; Go zero value `false` when absent or mistyped. -/
def yBool : Option YVal → Bool
  | some (.b v) => v
  | _ => false

/-- Decode a `[]string` field; Go zero value `nil` when absent. -/
def yStrList : Option YVal → List String
  | some (.l xs) => xs.filterMap (fun x => match x with | .s v => some v | _ => none)
  | _ => []

/-- Marshal a `Config` to a YAML mapping node, tag for tag. -/
def marshalConfig (cfg : Config) : YVal :=
  .m [("clusterProfile", .s cfg.clusterProfile),
      ("mode", .s cfg.mode),
      ("gitops", .m [("provider", .s cfg.gitops.provider),
                     ("repoURL", .s cfg.gitops.repoURL),
                     ("branch", .s cfg.gitops.branch),
                     ("path", .s cfg.gitops.path)]),
      ("platform", .m [
        ("metricsServer", .m [("enabled", .b cfg.platform.metricsServer.enabled),
                              ("version", .s cfg.platform.metricsServer.version)]),
        ("kubeStateMetrics", .m [("enabled", .b cfg.platform.kubeStateMetrics.enabled),
                                 ("version", .s cfg.platform.kubeStateMetrics.version)]),
        ("prometheusStack", .m [("enabled", .b cfg.platform.prometheusStack.enabled),
                                ("version", .s cfg.platform.prometheusStack.version)]),
        ("ingress", .m [("enabled", .b cfg.platform.ingress.enabled),
                        ("provider", .s cfg.platform.ingress.provider),
                        ("version", .s cfg.platform.ingress.version)]),
        ("certManager", .m [("enabled", .b cfg.platform.certManager.enabled),
                            ("version", .s cfg.platform.certManager.version)])]),
      ("policy", .m [("enabled", .b cfg.policy.enabled),
                     ("provider", .s cfg.policy.provider),
                     ("version", .s cfg.policy.version),
                     ("podSecurityStandard", .s cfg.policy.podSecurityStandard),
                     ("customPolicies", .l (cfg.policy.customPolicies.map .s))]),
      ("networkPolicy", .m [("enabled", .b cfg.networkPolicy.enabled),
                            ("defaultDeny", .b cfg.networkPolicy.defaultDeny),
                            ("systemNamespaces", .l (cfg.networkPolicy.systemNamespaces.map .s))]),
      ("autoscaling", .m [
        ("hpa", .m [("enabled", .b cfg.autoscaling.hpa.enabled)]),
        ("nodeAutoscaler", .m [("enabled", .b cfg.autoscaling.nodeAutoscaler.enabled),
                               ("provider", .s cfg.autoscaling.nodeAutoscaler.provider),
                               ("version", .s cfg.autoscaling.nodeAutoscaler.version)])]),
      ("demo", .m [("namespace", .s cfg.demo.nspace),
                   ("replicas", .i cfg.demo.replicas),
                   ("resources", .m [
                     ("requests", .m [("cpu", .s cfg.demo.resources.requests.cpu),
                                      ("memory", .s cfg.demo.resources.requests.memory)]),
                     ("limits", .m [("cpu", .s cfg.demo.resources.limits.cpu),
                                    ("memory", .s cfg.demo.resources.limits.memory)])]),
                   ("hpa", .m [("minReplicas", .i cfg.demo.hpa.minReplicas),
                               ("maxReplicas", .i cfg.demo.hpa.maxReplicas),
                               ("targetCPUUtilization", .i cfg.demo.hpa.targetCPUUtilization)]),
                   ("pdb", .m [("minAvailable", .i cfg.demo.pdb.minAvailable)])]),
      ("verify", .m [("timeout", .s cfg.verify.timeout),
                     ("parallel", .b cfg.verify.parallel),
                     ("tests", .l (cfg.verify.tests.map .s))])]

/-- Decode a mapping node's fields as a `ComponentConfig`. -/
def unmarshalComponent (v : Option YVal) : ComponentConfig :=
  match v with
  | some (.m f) => { enabled := yBool (yLookup f "enabled"), version := yStr (yLookup f "version") }
  | _ => { enabled := false, version := "" }

/-- Unmarshal a YAML document into a `Config`; a non-mapping document is a
parse error (`none`), any missing key decodes to its Go zero value. -/
def unmarshalConfig (v : YVal) : Option Config :=
  match v with
  | .m f => some
    { clusterProfile := yStr (yLookup f "clusterProfile")
      mode := yStr (yLookup f "mode")
      gitops :=
        match yLookup f "gitops" with
        | some (.m g) =>
          { provider := yStr (yLookup g "provider"), repoURL := yStr (yLookup g "repoURL")
            branch := yStr (yLookup g "branch"), path := yStr (yLookup g "path") }
        | _ => { provider := "", repoURL := "", branch := "", path := "" }
      platform :=
        match yLookup f "platform" with
        | some (.m p) =>
          { metricsServer := unmarshalComponent (yLookup p "metricsServer")
            kubeStateMetrics := unmarshalComponent (yLookup p "kubeStateMetrics")
            prometheusStack := unmarshalComponent (yLookup p "prometheusStack")
            ingress :=
              match yLookup p "ingress" with
              | some (.m g) =>
                { enabled := yBool (yLookup g "enabled"), provider := yStr (yLookup g "provider")
                  version := yStr (yLookup g "version") }
              | _ => { enabled := false, provider := "", version := "" }
            certManager := unmarshalComponent (yLookup p "certManager") }
        | _ =>
          { metricsServer := { enabled := false, version := "" }
            kubeStateMetrics := { enabled := false, version := "" }
            prometheusStack := { enabled := false, version := "" }
            ingress := { enabled := false, provider := "", version := "" }
            certManager := { enabled := false, version := "" } }
      policy :=
        match yLookup f "policy" with
        | some (.m p) =>
          { enabled := yBool (yLookup p "enabled"), provider := yStr (yLookup p "provider")
            version := yStr (yLookup p "version")
            podSecurityStandard := yStr (yLookup p "podSecurityStandard")
            customPolicies := yStrList (yLookup p "customPolicies") }
        | _ =>
          { enabled := false, provider := "", version := ""
            podSecurityStandard := "", customPolicies := [] }
      networkPolicy :=
        match yLookup f "networkPolicy" with
        | some (.m p) =>
          { enabled := yBool (yLookup p "enabled"), defaultDeny := yBool (yLookup p "defaultDeny")
            systemNamespaces := yStrList (yLookup p "systemNamespaces") }
        | _ => { enabled := false, defaultDeny := false, systemNamespaces := [] }
      autoscaling :=
        match yLookup f "autoscaling" with
        | some (.m a) =>
          { hpa :=
              match yLookup a "hpa" with
              | some (.m h) => { enabled := yBool (yLookup h "enabled") }
              | _ => { enabled := false }
            nodeAutoscaler :=
              match yLookup a "nodeAutoscaler" with
              | some (.m n) =>
                { enabled := yBool (yLookup n "enabled"), provider := yStr (yLookup n "provider")
                  version := yStr (yLookup n "version") }
              | _ => { enabled := false, provider := "", version := "" } }
        | _ =>
          { hpa := { enabled := false }
            nodeAutoscaler := { enabled := false, provider := "", version := "" } }
      demo :=
        match yLookup f "demo" with
        | some (.m d) =>
          { nspace := yStr (yLookup d "namespace"), replicas := yInt (yLookup d "replicas")
            resources :=
              match yLookup d "resources" with
              | some (.m r) =>
                { requests :=
                    match yLookup r "requests" with
                    | some (.m q) => { cpu := yStr (yLookup q "cpu"), memory := yStr (yLookup q "memory") }
                    | _ => { cpu := "", memory := "" }
                  limits :=
                    match yLookup r "limits" with
                    | some (.m q) => { cpu := yStr (yLookup q "cpu"), memory := yStr (yLookup q "memory") }
                    | _ => { cpu := "", memory := "" } }
              | _ => { requests := { cpu := "", memory := "" }, limits := { cpu := "", memory := "" } }
            hpa :=
              match yLookup d "hpa" with
              | some (.m h) =>
                { minReplicas := yInt (yLookup h "minReplicas")
                  maxReplicas := yInt (yLookup h "maxReplicas")
                  targetCPUUtilization := yInt (yLookup h "targetCPUUtilization") }
              | _ => { minReplicas := 0, maxReplicas := 0, targetCPUUtilization := 0 }
            pdb :=
              match yLookup d "pdb" with
              | some (.m p) => { minAvailable := yInt (yLookup p "minAvailable") }
              | _ => { minAvailable := 0 } }
        | _ =>
          { nspace := "", replicas := 0
            resources := { requests := { cpu := "", memory := "" }, limits := { cpu := "", memory := "" } }
            hpa := { minReplicas := 0, maxReplicas := 0, targetCPUUtilization := 0 }
            pdb := { minAvailable := 0 } }
      verify :=
        match yLookup f "verify" with
        | some (.m p) =>
          { timeout := yStr (yLookup p "timeout"), parallel := yBool (yLookup p "parallel")
            tests := yStrList (yLookup p "tests") }
        | _ => { timeout := "", parallel := false, tests := [] } }
  | _ => none

/-- `WriteConfig(path, cfg)`: marshal and store at `path`.  The filesystem
is a map from paths to stored YAML documents. -/
def writeConfig (fs : String → Option YVal) (path : String) (cfg : Config) :
    String → Option YVal :=
  fun p => if p = path then some (marshalConfig cfg) else fs p

/-- `LoadConfig(path)`: read the file, then unmarshal; failure of either
step is an error. -/
def loadConfig (fs : String → Option YVal) (path : String) : Except String Config :=
  match fs path with
  | none => .error "failed to read config file"
  | some v =>
    match unmarshalConfig v with
    | none => .error "failed to parse config file"
    | some c => .ok c

/-! ## The installer (`internal/install/installer.go`)

Install runs record a trace of the effects they perform, so that "which
actions were invoked" is observable: cluster mutations (namespace
creation, manifest application), a readiness check (the deployment poll),
and filesystem effects (directory creation, manifest rendering). -/

/-- An observable effect of an install/uninstall run. -/
inductive Effect where
  | createNamespace (name : String)
  | applyPath (path : String)
  | waitDeployment (ns name : String)
  | mkdir (path : String)
  | render (path : String)
  deriving Repr, DecidableEq

/-- Effects that mutate live cluster state. -/
def isClusterMutation : Effect → Bool
  | .createNamespace _ => true
  | .applyPath _ => true
  | _ => false

/-- Effects that are readiness checks against the cluster. -/
def isReadinessCheck : Effect → Bool
  | .waitDeployment _ _ => true
  | _ => false

/-- `isAlreadyExists`: the code compares the error text to
"already exists". -/
def isAlreadyExists (e : String) : Bool :=
  e = "already exists"

/-- `isNotFound`: the code compares the error text to "not found". -/
def isNotFound (e : String) : Bool :=
  e = "not found"

/-- `Installer.createNamespace` applied to the accessor's `Create` result:
an error is propagated unless it is AlreadyExists. -/
def createNamespace (res : Except String Unit) : Except String Unit :=
  match res with
  | .ok _ => .ok ()
  | .error e => if isAlreadyExists e then .ok () else .error e

/-- The installer's environment: the Remote State Accessor plus the
filesystem operations of gitops mode.  `getDeployment ns name att` is the
attempt-indexed deployment `Get` used by `waitForDeployment`. -/
structure ClusterEnv where
  createNamespaceRaw : String → Except String Unit
  applyManifests : String → Except String Unit
  getDeployment : String → String → Nat → Except String Deployment
  mkdirAll : String → Except String Unit
  renderGitOps : String → Except String Unit

/-- The network-policy step of `Installer.installDirect` (gated by
`config.NetworkPolicy.Enabled`), continuing from an accumulated trace. -/
def installNetpolStep (cfg : Config) (env : ClusterEnv) (tr : List Effect) :
    List Effect × Except String Unit :=
  if cfg.networkPolicy.enabled then
    let tr := tr ++ [.applyPath "bundles/netpol"]
    match env.applyManifests "bundles/netpol" with
    | .error e => (tr, .error ("failed to install network policies: " ++ e))
    | .ok _ => (tr, .ok ())
  else (tr, .ok ())

/-- The policy-engine step of `Installer.installDirect` (gated by
`config.Policy.Enabled`): apply the Kyverno bundle, wait for the kyverno
deployment (timeout 120s), then apply the baseline policies; each error
aborts with the wrapped message of the source. -/
def installPolicyStep (cfg : Config) (env : ClusterEnv) (tr : List Effect) :
    List Effect × Except String Unit :=
  if cfg.policy.enabled then
    let tr := tr ++ [.applyPath "bundles/policies/kyverno"]
    match env.applyManifests "bundles/policies/kyverno" with
    | .error e => (tr, .error ("failed to install kyverno: " ++ e))
    | .ok _ =>
      let tr := tr ++ [.waitDeployment "kyverno" "kyverno"]
      match waitForDeployment (env.getDeployment "kyverno" "kyverno") 120 with
      | .timedOut => (tr, .error ("kyverno not ready: " ++ "timed out waiting for the condition"))
      | .condErr e => (tr, .error ("kyverno not ready: " ++ e))
      | .success =>
        let tr := tr ++ [.applyPath "bundles/policies/baseline"]
        match env.applyManifests "bundles/policies/baseline" with
        | .error e => (tr, .error ("failed to apply policies: " ++ e))
        | .ok _ => installNetpolStep cfg env tr
  else installNetpolStep cfg env tr

/-- The kube-state-metrics step of `Installer.installDirect` (gated by
`config.Platform.KubeStateMetrics.Enabled`). -/
def installKSMStep (cfg : Config) (env : ClusterEnv) (tr : List Effect) :
    List Effect × Except String Unit :=
  if cfg.platform.kubeStateMetrics.enabled then
    let tr := tr ++ [.applyPath "bundles/platform/kube-state-metrics"]
    match env.applyManifests "bundles/platform/kube-state-metrics" with
    | .error e => (tr, .error ("failed to install kube-state-metrics: " ++ e))
    | .ok _ => installPolicyStep cfg env tr
  else installPolicyStep cfg env tr

/-- `Installer.installDirect`: metrics-server, kube-state-metrics, policy
engine (with readiness wait and baseline policies), network policies — in
that order, each gated by its config toggle, aborting on the first
error with the step's wrapped message. -/
def installDirect (cfg : Config) (env : ClusterEnv) (tr : List Effect) :
    List Effect × Except String Unit :=
  if cfg.platform.metricsServer.enabled then
    let tr := tr ++ [.applyPath "bundles/platform/metrics-server"]
    match env.applyManifests "bundles/platform/metrics-server" with
    | .error e => (tr, .error ("failed to install metrics-server: " ++ e))
    | .ok _ => installKSMStep cfg env tr
  else installKSMStep cfg env tr

/-- The directory-creation loop of `Installer.installGitOps`. -/
def mkdirs (env : ClusterEnv) (tr : List Effect) : List String → List Effect × Except String Unit
  | [] => (tr, .ok ())
  | d :: ds =>
    let tr := tr ++ [.mkdir d]
    match env.mkdirAll d with
    | .error e => (tr, .error ("failed to create directory " ++ d ++ ": " ++ e))
    | .ok _ => mkdirs env tr ds

/-- `Installer.installGitOps`: resolve the gitops path (default
"clusters/my-cluster"), create the five subdirectories, render the
manifests.  No cluster call is made. -/
def installGitOps (cfg : Config) (env : ClusterEnv) (tr : List Effect) :
    List Effect × Except String Unit :=
  let gitopsPath := if cfg.gitops.path = "" then "clusters/my-cluster" else cfg.gitops.path
  let dirs := [gitopsPath ++ "/flux-system", gitopsPath ++ "/platform",
               gitopsPath ++ "/policies", gitopsPath ++ "/netpol", gitopsPath ++ "/apps"]
  match mkdirs env tr dirs with
  | (tr, .error e) => (tr, .error e)
  | (tr, .ok _) =>
    let tr := tr ++ [.render gitopsPath]
    match env.renderGitOps gitopsPath with
    | .error e => (tr, .error ("failed to render GitOps manifests: " ++ e))
    | .ok _ => (tr, .ok ())

/-- `Installer.Install`: create the kubac-system namespace, then dispatch
on `config.Mode` ("gitops" → render to disk, otherwise direct install). -/
def install (cfg : Config) (env : ClusterEnv) : List Effect × Except String Unit :=
  let tr := [Effect.createNamespace "kubac-system"]
  match createNamespace (env.createNamespaceRaw "kubac-system") with
  | .error e => (tr, .error e)
  | .ok _ =>
    if cfg.mode = "gitops" then installGitOps cfg env tr
    else installDirect cfg env tr

/-- The namespace list that `Installer.Uninstall` deletes: the fixed two
plus the demo namespace when configured. -/
def uninstallNamespaces (cfg : Config) : List String :=
  ["kubac-system", "kyverno"] ++ (if cfg.demo.nspace ≠ "" then [cfg.demo.nspace] else [])

/-- `Installer.Uninstall`: delete each namespace; a deletion error that is
not NotFound is only printed as a warning (collected here as the first
component); the function always returns nil. -/
def uninstall (cfg : Config) (deleteNs : String → Except String Unit) :
    List String × Except String Unit :=
  ((uninstallNamespaces cfg).foldl
    (fun ws ns =>
      match deleteNs ns with
      | .ok _ => ws
      | .error e =>
        if isNotFound e then ws
        else ws ++ ["Warning: failed to delete namespace " ++ ns ++ ": " ++ e])
    [],
   .ok ())

/-! ## Lemmas about the verifier -/

/-- The result-appending loop is the map over the configured names. -/
lemma foldl_append_eq_map {α β : Type} (f : α → β) :
    ∀ (l : List α) (acc : List β), l.foldl (fun a n => a ++ [f n]) acc = acc ++ l.map f := by
  intro l
  induction l with
  | nil => intro acc; simp
  | cons x xs ih => intro acc; simp [List.foldl_cons, ih]

lemma runTests_eq_map (v : Verifier) (names : List String) :
    runTests v names = names.map (runOne v) := by
  unfold runTests
  rw [foldl_append_eq_map]
  simp

/-- The summary loop never changes `total`. -/
lemma summary_foldl_total :
    ∀ (ts : List TestResult) (s : Summary), (ts.foldl summaryStep s).total = s.total := by
  intro ts
  induction ts with
  | nil => intro s; rfl
  | cons t ts ih =>
    intro s
    rw [List.foldl_cons, ih]
    unfold summaryStep
    split <;> [rfl; split <;> rfl]

/-- The summary loop adds the number of "PASS" results to `passed`. -/
lemma summary_foldl_passed :
    ∀ (ts : List TestResult) (s : Summary),
      (ts.foldl summaryStep s).passed
        = s.passed + (ts.filter (fun t => t.status = "PASS")).length := by
  intro ts
  induction ts with
  | nil => intro s; simp
  | cons t ts ih =>
    intro s
    rw [List.foldl_cons, ih]
    unfold summaryStep
    by_cases hp : t.status = "PASS"
    · simp [hp, List.filter_cons]
      omega
    · by_cases hf : t.status = "FAIL" <;> simp [hp, hf, List.filter_cons]

/-- The summary loop adds the number of "FAIL" results to `failed`. -/
lemma summary_foldl_failed :
    ∀ (ts : List TestResult) (s : Summary),
      (ts.foldl summaryStep s).failed
        = s.failed + (ts.filter (fun t => t.status = "FAIL")).length := by
  intro ts
  induction ts with
  | nil => intro s; simp
  | cons t ts ih =>
    intro s
    rw [List.foldl_cons, ih]
    unfold summaryStep
    by_cases hp : t.status = "PASS"
    · have hf : ¬ t.status = "FAIL" := by rw [hp]; decide
      simp [hp, hf, List.filter_cons]
    · by_cases hf : t.status = "FAIL" <;> simp [hp, hf, List.filter_cons]
      omega

/-- Every branch of `testPodSelfHeal` names the probe "pod-selfheal". -/
lemma testPodSelfHeal_name (env : SelfHealEnv) :
    (testPodSelfHeal env).name = "pod-selfheal" := by
  unfold testPodSelfHeal
  dsimp only
  repeat' split
  all_goals rfl

/-- Every branch of `testHPAScale` names the probe "hpa-scale". -/
lemma testHPAScale_name (spec : HPASpec) (env : HPAEnv) :
    (testHPAScale spec env).name = "hpa-scale" := by
  unfold testHPAScale
  repeat' split
  all_goals rfl

/-- Every branch of `testPolicyDeny` names the probe "policy-deny". -/
lemma testPolicyDeny_name (env : PolicyEnv) :
    (testPolicyDeny env).name = "policy-deny" := by
  unfold testPolicyDeny
  split <;> rfl

/-- Every branch of `testNetworkDeny` names the probe "network-deny". -/
lemma testNetworkDeny_name (env : NetpolEnv) :
    (testNetworkDeny env).name = "network-deny" := by
  unfold testNetworkDeny
  dsimp only
  repeat' split
  all_goals rfl

/-- The dispatched result carries exactly the configured test name. -/
lemma runOne_name (v : Verifier) (n : String) : (runOne v n).name = n := by
  unfold runOne
  split_ifs with h1 h2 h3 h4
  · rw [testPodSelfHeal_name, h1]
  · rw [testHPAScale_name, h2]
  · rw [testPolicyDeny_name, h3]
  · rw [testNetworkDeny_name, h4]
  · rfl

/-! ## C1: the summary invariant -/

/-- C1.  For every run of `RunAll` over any configured test list
(including the empty one): `summary.total` equals the number of configured
tests (and of recorded results), `summary.failed` counts the FAIL results,
`summary.passed` counts the PASS results (WARN and SKIP count toward total
only), `AllPassed()` holds iff `summary.failed = 0`, and for the empty
list the total is 0 and `AllPassed()` is true. -/
theorem runAll_summary_invariant (v : Verifier) (names : List String) :
    (runAll v names).summary.total = names.length
  ∧ (runAll v names).summary.total = (runAll v names).tests.length
  ∧ (runAll v names).summary.failed
      = ((runAll v names).tests.filter (fun t => t.status = "FAIL")).length
  ∧ (runAll v names).summary.passed
      = ((runAll v names).tests.filter (fun t => t.status = "PASS")).length
  ∧ (allPassed (runAll v names) = true ↔ (runAll v names).summary.failed = 0)
  ∧ (names = [] → (runAll v names).summary.total = 0 ∧ allPassed (runAll v names) = true) := by
  have htests : (runAll v names).tests = names.map (runOne v) := by
    unfold runAll
    exact runTests_eq_map v names
  have hsum : (runAll v names).summary = calcSummary (runTests v names) := rfl
  have hlen : (runTests v names).length = names.length := by
    rw [runTests_eq_map]; simp
  refine ⟨?_, ?_, ?_, ?_, ?_, ?_⟩
  · rw [hsum]
    unfold calcSummary
    rw [summary_foldl_total]
    exact hlen
  · rw [hsum]
    unfold calcSummary
    rw [summary_foldl_total]
    show (runTests v names).length = (runAll v names).tests.length
    rfl
  · rw [hsum]
    unfold calcSummary
    rw [summary_foldl_failed]
    simp
    rfl
  · rw [hsum]
    unfold calcSummary
    rw [summary_foldl_passed]
    simp
    rfl
  · unfold allPassed
    simp
  · intro h
    subst h
    constructor
    · rfl
    · rfl

/-- Witness for C1 at a concrete verifier and the empty test list. -/
def verifierW : Verifier :=
  { hpaSpec := { minReplicas := 2, maxReplicas := 10, targetCPUUtilization := 50 }
    selfHeal :=
      { getDeployment := .ok ⟨3, 3⟩
        listPods := .ok ["demo-abc"]
        deletePod := fun _ => .ok ()
        getDeploymentPoll := fun _ => .ok ⟨3, 3⟩ }
    hpa := { getHPA := .error "not found" }
    policy := { createPod := .error "denied" }
    netpol := { listNetPols := .ok [⟨0, 0⟩] } }

theorem runAll_summary_invariant_witness :
    ([] : List String) = []
  ∧ (runAll verifierW []).summary.total = 0
  ∧ allPassed (runAll verifierW []) = true :=
  ⟨rfl, (runAll_summary_invariant verifierW []).2.2.2.2.2 rfl⟩

/-! ## C3: one result per configured name, in order, no early abort -/

/-- C3.  `RunAll` records exactly one result per configured test name — the
result of dispatching that name — in configuration order, and the result
list's names read back exactly the configured list; in particular the run
never aborts early, whatever earlier probes return. -/
theorem runAll_complete (v : Verifier) (names : List String) :
    (runAll v names).tests = names.map (runOne v)
  ∧ (runAll v names).tests.map (fun t => t.name) = names
  ∧ (runAll v names).tests.length = names.length := by
  have htests : (runAll v names).tests = names.map (runOne v) := runTests_eq_map v names
  refine ⟨htests, ?_, ?_⟩
  · rw [htests, List.map_map]
    have : (fun t => TestResult.name t) ∘ runOne v = fun n => n := by
      funext n
      exact runOne_name v n
    rw [this]
    exact List.map_id' names
  · rw [htests]; simp

/-! ## Lemmas about the poll loop -/

/-- If the condition is "not yet" (false, no error) for the first `j`
attempts starting at `att` and met at attempt `att + j`, and `j` is within
the remaining budget, the loop succeeds. -/
lemma pollAttempts_success (cond : Nat → Bool × Option String) :
    ∀ (fuel j att : Nat), j < fuel →
      (∀ i, i < j → cond (att + i) = (false, none)) →
      cond (att + j) = (true, none) →
      pollAttempts cond att fuel = .success := by
  intro fuel
  induction fuel with
  | zero => intro j att hj; omega
  | succ n ih =>
    intro j att hj hnot hmet
    cases j with
    | zero =>
      unfold pollAttempts
      rw [show att + 0 = att by omega] at hmet
      rw [hmet]
    | succ j =>
      have h0 : cond att = (false, none) := by
        have := hnot 0 (by omega)
        simpa using this
      unfold pollAttempts
      rw [h0]
      exact ih j (att + 1) (by omega)
        (fun i hi => by
          have := hnot (i + 1) (by omega)
          simpa [Nat.add_assoc, Nat.add_comm 1 i] using this)
        (by
          have : att + 1 + j = att + (j + 1) := by omega
          rw [this]
          exact hmet)

/-- If the condition is "not yet" at every attempt that fits the budget,
the loop times out. -/
lemma pollAttempts_timedOut (cond : Nat → Bool × Option String) :
    ∀ (fuel att : Nat),
      (∀ i, i < fuel → cond (att + i) = (false, none)) →
      pollAttempts cond att fuel = .timedOut := by
  intro fuel
  induction fuel with
  | zero => intro att _; rfl
  | succ n ih =>
    intro att hnot
    have h0 : cond att = (false, none) := by
      have := hnot 0 (by omega)
      simpa using this
    unfold pollAttempts
    rw [h0]
    exact ih (att + 1)
      (fun i hi => by
        have := hnot (i + 1) (by omega)
        simpa [Nat.add_assoc, Nat.add_comm 1 i] using this)

/-! ## C2: poller error tolerance -/

/-- C2.  For the deployment-readiness poll: if the accessor errors on
attempts 1..k (each such error is swallowed as "not yet"), and on attempt
k+1 returns a deployment whose ready replicas equal its spec replicas, and
attempt k+1 still fits the `timeout/5 + 1` attempt budget, then the poll
returns overall success — predicate errors never abort the poll. -/
theorem waitForDeployment_error_tolerance
    (getDep : Nat → Except String Deployment) (timeout k : Nat) (d : Deployment)
    (herr : ∀ a, 1 ≤ a → a ≤ k → ∃ e, getDep a = .error e)
    (hok : getDep (k + 1) = .ok d)
    (hready : d.readyReplicas = d.specReplicas)
    (hbudget : k < timeout / 5 + 1) :
    waitForDeployment getDep timeout = .success := by
  unfold waitForDeployment pollImmediate
  apply pollAttempts_success _ _ k 1 hbudget
  · intro i hi
    obtain ⟨e, he⟩ := herr (1 + i) (by omega) (by omega)
    simp [he]
  · rw [Nat.add_comm 1 k, hok]
    simp [hready]

/-- Concrete poll for the C2 witness: the accessor fails twice, then
reports a ready deployment. -/
def getDepW : Nat → Except String Deployment :=
  fun a => if a ≤ 2 then .error "connection refused" else .ok ⟨2, 2⟩

/-- Witness for C2: errors on attempts 1 and 2, ready on attempt 3,
within the 60s/5s budget. -/
theorem waitForDeployment_error_tolerance_witness :
    waitForDeployment getDepW 60 = .success :=
  waitForDeployment_error_tolerance getDepW 60 2 ⟨2, 2⟩
    (fun a h1 h2 => ⟨"connection refused", by
      interval_cases a <;> rfl⟩)
    rfl rfl (by norm_num)

/-- If the condition never errors and is met at some attempt within the
budget, the loop succeeds (earlier attempts may or may not be met). -/
lemma pollAttempts_success_exists (cond : Nat → Bool × Option String) :
    ∀ (fuel att : Nat), (∀ a, (cond a).2 = none) →
      (∃ i, i < fuel ∧ (cond (att + i)).1 = true) →
      pollAttempts cond att fuel = .success := by
  intro fuel
  induction fuel with
  | zero =>
    rintro att _ ⟨i, hi, _⟩
    omega
  | succ n ih =>
    rintro att hnoerr ⟨i, hi, htrue⟩
    rcases h0 : cond att with ⟨b, o⟩
    have ho : o = none := by
      have := hnoerr att
      rw [h0] at this
      exact this
    subst ho
    cases b with
    | true =>
      unfold pollAttempts
      rw [h0]
    | false =>
      unfold pollAttempts
      rw [h0]
      cases i with
      | zero =>
        rw [show att + 0 = att by omega, h0] at htrue
        simp at htrue
      | succ i =>
        exact ih (att + 1) hnoerr
          ⟨i, by omega, by
            have : att + 1 + i = att + (i + 1) := by omega
            rw [this]
            exact htrue⟩

/-! ## C6: the pod-selfheal probe -/

/-- C6.  `testPodSelfHeal` with an observed baseline of
`dep.readyReplicas`: (1) if after the delete the accessor reports ready
replicas back at or above the baseline at some attempt within the 5s/60s
poll window (13 attempts), the probe PASSes with a message naming the
deleted pod; (2) if recovery is never reported within the window, the
probe FAILs with "Pod was not replaced within timeout"; (3) if the subject
deployment cannot be located at all, the probe SKIPs rather than FAILs. -/
theorem podSelfHeal_spec :
    (∀ (env : SelfHealEnv) (dep : Deployment) (p : String) (ps : List String),
      env.getDeployment = .ok dep →
      env.listPods = .ok (p :: ps) →
      env.deletePod p = .ok () →
      (∃ j, j < 13 ∧ ∃ d, env.getDeploymentPoll (1 + j) = .ok d
        ∧ dep.readyReplicas ≤ d.readyReplicas) →
      testPodSelfHeal env = ⟨"pod-selfheal", "PASS", "Pod " ++ p ++ " was replaced successfully"⟩)
  ∧ (∀ (env : SelfHealEnv) (dep : Deployment) (p : String) (ps : List String),
      env.getDeployment = .ok dep →
      env.listPods = .ok (p :: ps) →
      env.deletePod p = .ok () →
      (∀ a, 1 ≤ a → a ≤ 13 → ∀ d, env.getDeploymentPoll a = .ok d
        → d.readyReplicas < dep.readyReplicas) →
      testPodSelfHeal env = ⟨"pod-selfheal", "FAIL", "Pod was not replaced within timeout"⟩)
  ∧ (∀ (env : SelfHealEnv) (e : String),
      env.getDeployment = .error e →
      testPodSelfHeal env = ⟨"pod-selfheal", "SKIP", "Demo app not deployed: " ++ e⟩) := by
  refine ⟨?_, ?_, ?_⟩
  · rintro env dep p ps hget hlist hdel ⟨j, hj, d, hd, hge⟩
    unfold testPodSelfHeal
    rw [hget]
    dsimp only
    rw [hlist]
    dsimp only
    rw [hdel]
    have hpoll : pollImmediate 5 60 (fun att =>
        match env.getDeploymentPoll att with
        | .error _ => (false, none)
        | .ok d => (dep.readyReplicas ≤ d.readyReplicas, none)) = .success := by
      unfold pollImmediate
      apply pollAttempts_success_exists
      · intro a
        cases env.getDeploymentPoll a <;> rfl
      · exact ⟨j, by omega, by rw [hd]; simpa using hge⟩
    rw [hpoll]
  · rintro env dep p ps hget hlist hdel hnever
    unfold testPodSelfHeal
    rw [hget]
    dsimp only
    rw [hlist]
    dsimp only
    rw [hdel]
    have hpoll : pollImmediate 5 60 (fun att =>
        match env.getDeploymentPoll att with
        | .error _ => (false, none)
        | .ok d => (dep.readyReplicas ≤ d.readyReplicas, none)) = .timedOut := by
      unfold pollImmediate
      apply pollAttempts_timedOut
      intro i hi
      rcases hp : env.getDeploymentPoll (1 + i) with e | d
      · rfl
      · have := hnever (1 + i) (by omega) (by omega) d hp
        simp [this]
    rw [hpoll]
  · intro env e hget
    unfold testPodSelfHeal
    rw [hget]

/-- Concrete environment for the C6 witness: baseline 3, the poll reports
2/3 ready for three attempts and 3/3 from attempt 4 on. -/
def selfHealEnvW : SelfHealEnv :=
  { getDeployment := .ok ⟨3, 3⟩
    listPods := .ok ["demo-7f9c"]
    deletePod := fun _ => .ok ()
    getDeploymentPoll := fun a => if a ≤ 3 then .ok ⟨2, 3⟩ else .ok ⟨3, 3⟩ }

/-- Witness for C6: recovery reported at attempt 4 of the window yields
PASS naming the deleted pod. -/
theorem podSelfHeal_spec_witness :
    testPodSelfHeal selfHealEnvW
      = ⟨"pod-selfheal", "PASS", "Pod " ++ "demo-7f9c" ++ " was replaced successfully"⟩ :=
  podSelfHeal_spec.1 selfHealEnvW ⟨3, 3⟩ "demo-7f9c" [] rfl rfl rfl
    ⟨3, by omega, ⟨3, 3⟩, rfl, by norm_num⟩

/-! ## C7: transient accessor errors in the policy-deny probe

`testPolicyDeny` never inspects the error returned by the create call: any
error — a policy denial, but equally a transient network or auth failure —
takes the `err != nil` branch and yields PASS with a fixed message.  The
claim that such errors surface as FAIL with the raw error attached is
therefore false of the code. -/

/-- A create call failing with a transient network error rather than a
policy denial. -/
def policyEnvTransient : PolicyEnv :=
  { createPod := .error "connection refused: network unreachable" }

/-- Counterexample to C7: when the Remote State Accessor call fails with a
transient network error, `testPolicyDeny` returns PASS with the fixed
denial message — not FAIL, and the raw error message is discarded. -/
theorem policyDeny_transient_cex :
    testPolicyDeny policyEnvTransient
      = ⟨"policy-deny", "PASS", "Privileged pod was correctly denied by policy"⟩
  ∧ (testPolicyDeny policyEnvTransient).status ≠ "FAIL" := by
  constructor
  · rfl
  · intro h
    simp [testPolicyDeny, policyEnvTransient] at h

/-- C7 (amended).  Any error from the create call — policy denial or
transient network/auth failure alike — yields PASS with the fixed message
"Privileged pod was correctly denied by policy"; only a successful
creation yields FAIL.  The raw error message is never attached. -/
theorem policyDeny_error_is_pass (env : PolicyEnv) (e : String)
    (h : env.createPod = .error e) :
    testPolicyDeny env
      = ⟨"policy-deny", "PASS", "Privileged pod was correctly denied by policy"⟩ := by
  unfold testPolicyDeny
  rw [h]

/-- Witness for the amended C7 at the transient-error environment. -/
theorem policyDeny_error_is_pass_witness :
    testPolicyDeny policyEnvTransient
      = ⟨"policy-deny", "PASS", "Privileged pod was correctly denied by policy"⟩ :=
  policyDeny_error_is_pass policyEnvTransient "connection refused: network unreachable" rfl

/-! ## C8: configuration round-trip -/

/-- Decoding a marshalled `[]string` field recovers the list. -/
lemma yStrList_roundtrip (xs : List String) :
    yStrList (some (.l (xs.map .s))) = xs := by
  show (xs.map YVal.s).filterMap
      (fun x => match x with | YVal.s v => some v | _ => none) = xs
  rw [List.filterMap_map]
  exact List.filterMap_some xs

/-- C8.  Writing any configuration object with `WriteConfig` and loading
the same path back with `LoadConfig` reproduces every field value exactly
— every string, int, bool and list field of every section. -/
theorem config_roundtrip (fs : String → Option YVal) (path : String) (cfg : Config) :
    loadConfig (writeConfig fs path cfg) path = .ok cfg := by
  unfold loadConfig writeConfig
  simp only [if_pos rfl]
  unfold unmarshalConfig marshalConfig
  simp only [yLookup, List.find?, unmarshalComponent, yStr, yInt, yBool]
  norm_num
  cases cfg with
  | mk clusterProfile mode gitops platform policy networkPolicy autoscaling demo verify =>
    cases gitops
    cases platform with
    | mk metricsServer kubeStateMetrics prometheusStack ingress certManager =>
      cases metricsServer
      cases kubeStateMetrics
      cases prometheusStack
      cases ingress
      cases certManager
      cases policy
      cases networkPolicy
      cases autoscaling with
      | mk hpa nodeAutoscaler =>
        cases hpa
        cases nodeAutoscaler
        cases demo with
        | mk nspace replicas resources hpaSpec pdb =>
          cases resources with
          | mk requests limits =>
            cases requests
            cases limits
            cases hpaSpec
            cases pdb
            cases verify
            simp [yStrList_roundtrip]

/-! ## C4: the sequencer aborts at the first failing step -/

/-- C4.  In direct mode, with step A (metrics-server) enabled and
succeeding, step B (kube-state-metrics) enabled and failing, and step C
(the policy engine, which follows B) configured after it: the run records
exactly A's and B's apply actions — A's side effect remains applied, with
no rollback — returns the error wrapped with B's step name, and never
invokes C's action. -/
theorem installDirect_abort (cfg : Config) (env : ClusterEnv) (e : String)
    (hA : cfg.platform.metricsServer.enabled = true)
    (hB : cfg.platform.kubeStateMetrics.enabled = true)
    (hAok : env.applyManifests "bundles/platform/metrics-server" = .ok ())
    (hBerr : env.applyManifests "bundles/platform/kube-state-metrics" = .error e) :
    installDirect cfg env []
      = ([.applyPath "bundles/platform/metrics-server",
          .applyPath "bundles/platform/kube-state-metrics"],
         .error ("failed to install kube-state-metrics: " ++ e))
  ∧ Effect.applyPath "bundles/policies/kyverno" ∉ (installDirect cfg env []).1
  ∧ Effect.applyPath "bundles/netpol" ∉ (installDirect cfg env []).1 := by
  have h : installDirect cfg env []
      = ([.applyPath "bundles/platform/metrics-server",
          .applyPath "bundles/platform/kube-state-metrics"],
         .error ("failed to install kube-state-metrics: " ++ e)) := by
    unfold installDirect installKSMStep
    rw [hA, hB]
    simp only [if_true]
    rw [hAok]
    dsimp only
    rw [hBerr]
    dsimp only
    simp
  refine ⟨h, ?_, ?_⟩
  · rw [h]
    dsimp only
    decide
  · rw [h]
    dsimp only
    decide

/-- An all-succeeding environment for the install witnesses: every
accessor and filesystem call succeeds and the kyverno deployment is
immediately ready. -/
def clusterEnvOK : ClusterEnv :=
  { createNamespaceRaw := fun _ => .ok ()
    applyManifests := fun _ => .ok ()
    getDeployment := fun _ _ _ => .ok ⟨1, 1⟩
    mkdirAll := fun _ => .ok ()
    renderGitOps := fun _ => .ok () }

/-- Environment for the C4 witness: metrics-server applies fine, the
kube-state-metrics apply fails. -/
def clusterEnvBFails : ClusterEnv :=
  { clusterEnvOK with
    applyManifests := fun p =>
      if p = "bundles/platform/kube-state-metrics" then .error "apply failed" else .ok () }

/-- Witness for C4 at the default direct-mode configuration. -/
theorem installDirect_abort_witness :
    installDirect (defaultConfig "local" "direct") clusterEnvBFails []
      = ([.applyPath "bundles/platform/metrics-server",
          .applyPath "bundles/platform/kube-state-metrics"],
         .error ("failed to install kube-state-metrics: " ++ "apply failed"))
  ∧ Effect.applyPath "bundles/policies/kyverno"
      ∉ (installDirect (defaultConfig "local" "direct") clusterEnvBFails []).1
  ∧ Effect.applyPath "bundles/netpol"
      ∉ (installDirect (defaultConfig "local" "direct") clusterEnvBFails []).1 :=
  installDirect_abort (defaultConfig "local" "direct") clusterEnvBFails "apply failed"
    rfl rfl rfl rfl

/-! ## C5: gitops mode and cluster mutation

`Installer.Install` creates the kubac-system namespace against the live
cluster *before* dispatching on the mode — in gitops mode too.  So a
gitops-mode install is not entirely free of live cluster mutation; the
claim holds only of everything after that namespace creation: the gitops
branch itself performs only directory creation and manifest rendering, and
no readiness checks. -/

/-- The directory loop only appends filesystem `mkdir` effects. -/
lemma mkdirs_effects (env : ClusterEnv) :
    ∀ (ds : List String) (tr : List Effect) (e : Effect),
      e ∈ (mkdirs env tr ds).1 → e ∈ tr ∨ ∃ d, e = Effect.mkdir d := by
  intro ds
  induction ds with
  | nil => intro tr e he; exact Or.inl he
  | cons d ds ih =>
    intro tr e he
    unfold mkdirs at he
    dsimp only at he
    rcases hm : env.mkdirAll d with er | u
    · rw [hm] at he
      dsimp only at he
      rcases List.mem_append.1 he with h | h
      · exact Or.inl h
      · right
        simp at h
        exact ⟨d, h⟩
    · rw [hm] at he
      dsimp only at he
      rcases ih (tr ++ [Effect.mkdir d]) e he with h | h
      · rcases List.mem_append.1 h with h | h
        · exact Or.inl h
        · right
          simp at h
          exact ⟨d, h⟩
      · exact Or.inr h

/-- The gitops branch only appends `mkdir` and `render` effects. -/
lemma installGitOps_effects (cfg : Config) (env : ClusterEnv) (tr : List Effect) (e : Effect) :
    e ∈ (installGitOps cfg env tr).1 →
    e ∈ tr ∨ (∃ d, e = Effect.mkdir d) ∨ (∃ p, e = Effect.render p) := by
  intro he
  unfold installGitOps at he
  dsimp only at he
  set gp := if cfg.gitops.path = "" then "clusters/my-cluster" else cfg.gitops.path with hgp
  rcases hm : mkdirs env tr [gp ++ "/flux-system", gp ++ "/platform", gp ++ "/policies",
      gp ++ "/netpol", gp ++ "/apps"] with ⟨tr2, res⟩
  have htr2 : ∀ x, x ∈ tr2 → x ∈ tr ∨ ∃ d, x = Effect.mkdir d := by
    intro x hx
    have := mkdirs_effects env _ tr x (by rw [hm]; exact hx)
    exact this
  rw [hm] at he
  cases res with
  | error er =>
    dsimp only at he
    rcases htr2 e he with h | h
    · exact Or.inl h
    · exact Or.inr (Or.inl h)
  | ok u =>
    dsimp only at he
    rcases hr : env.renderGitOps gp with er | u2 <;> rw [hr] at he <;> dsimp only at he <;>
      rcases List.mem_append.1 he with h | h
    · rcases htr2 e h with h2 | h2
      · exact Or.inl h2
      · exact Or.inr (Or.inl h2)
    · simp at h
      exact Or.inr (Or.inr ⟨gp, h⟩)
    · rcases htr2 e h with h2 | h2
      · exact Or.inl h2
      · exact Or.inr (Or.inl h2)
    · simp at h
      exact Or.inr (Or.inr ⟨gp, h⟩)

/-- Counterexample to C5 as stated: at the default gitops configuration
with an all-succeeding environment, the install run's trace is *not* free
of live cluster mutations — it creates the kubac-system namespace. -/
theorem install_gitops_mutation_cex :
    ¬ (∀ e ∈ (install (defaultConfig "local" "gitops") clusterEnvOK).1,
        isClusterMutation e = false) := by
  intro h
  have hmem : Effect.createNamespace "kubac-system"
      ∈ (install (defaultConfig "local" "gitops") clusterEnvOK).1 := by
    decide
  have := h _ hmem
  simp [isClusterMutation] at this

/-- C5 (amended).  In gitops mode the only live cluster mutation of the
whole install run is the initial creation of the kubac-system namespace,
performed in every mode before the mode dispatch; every further
effect renders manifests or creates directories on the target filesystem,
and no readiness check is ever performed. -/
theorem install_gitops_no_cluster_mutation (cfg : Config) (env : ClusterEnv)
    (hmode : cfg.mode = "gitops") :
    ∀ e ∈ (install cfg env).1,
      (isClusterMutation e = true → e = Effect.createNamespace "kubac-system")
      ∧ isReadinessCheck e = false := by
  intro e he
  unfold install at he
  dsimp only at he
  rcases hc : createNamespace (env.createNamespaceRaw "kubac-system") with er | u <;>
    rw [hc] at he <;> dsimp only at he
  · simp at he
    subst he
    exact ⟨fun _ => rfl, rfl⟩
  · rw [hmode] at he
    simp only [if_pos rfl] at he
    rcases installGitOps_effects cfg env _ e he with h | h | h
    · simp at h
      subst h
      exact ⟨fun _ => rfl, rfl⟩
    · obtain ⟨d, rfl⟩ := h
      exact ⟨fun hx => by simp [isClusterMutation] at hx, rfl⟩
    · obtain ⟨p, rfl⟩ := h
      exact ⟨fun hx => by simp [isClusterMutation] at hx, rfl⟩

/-- Witness for the amended C5: at the default gitops configuration the
namespace-creation effect is in the trace and is the permitted mutation;
it is not a readiness check. -/
theorem install_gitops_no_cluster_mutation_witness :
    (isClusterMutation (Effect.createNamespace "kubac-system") = true
      → Effect.createNamespace "kubac-system" = Effect.createNamespace "kubac-system")
  ∧ isReadinessCheck (Effect.createNamespace "kubac-system") = false :=
  install_gitops_no_cluster_mutation (defaultConfig "local" "gitops") clusterEnvOK rfl
    (Effect.createNamespace "kubac-system") (by decide)

/-! ## C9: namespace creation is idempotent -/

/-- C9.  `createNamespace` succeeds when the target already exists: an
AlreadyExists error from the accessor's `Create` is not propagated, and a
plain successful create also succeeds. -/
theorem createNamespace_idempotent (e : String) (h : isAlreadyExists e = true) :
    createNamespace (Except.error e) = .ok ()
  ∧ createNamespace (Except.ok ()) = .ok () := by
  constructor
  · unfold createNamespace
    dsimp only
    rw [h]
    simp
  · rfl

/-- Witness for C9 at the AlreadyExists error string the code tests for. -/
theorem createNamespace_idempotent_witness :
    createNamespace (Except.error "already exists") = .ok ()
  ∧ createNamespace (Except.ok ()) = .ok () :=
  createNamespace_idempotent "already exists" rfl

/-! ## C10: uninstall never reports failure -/

/-- Warnings already collected are preserved by the rest of the loop. -/
lemma uninstall_fold_mono (deleteNs : String → Except String Unit) :
    ∀ (l : List String) (ws : List String) (w : String),
      w ∈ ws →
      w ∈ l.foldl (fun ws ns =>
        match deleteNs ns with
        | .ok _ => ws
        | .error e =>
          if isNotFound e then ws
          else ws ++ ["Warning: failed to delete namespace " ++ ns ++ ": " ++ e]) ws := by
  intro l
  induction l with
  | nil => intro ws w hw; exact hw
  | cons ns l ih =>
    intro ws w hw
    rw [List.foldl_cons]
    apply ih
    rcases hd : deleteNs ns with e | u
    · dsimp only
      split
      · exact hw
      · exact List.mem_append.2 (Or.inl hw)
    · exact hw

/-- A namespace whose deletion fails with a non-NotFound error contributes
its warning to the loop's result. -/
lemma uninstall_fold_warns (deleteNs : String → Except String Unit) :
    ∀ (l : List String) (ws : List String) (ns e : String),
      ns ∈ l → deleteNs ns = .error e → isNotFound e = false →
      ("Warning: failed to delete namespace " ++ ns ++ ": " ++ e)
        ∈ l.foldl (fun ws ns =>
            match deleteNs ns with
            | .ok _ => ws
            | .error e =>
              if isNotFound e then ws
              else ws ++ ["Warning: failed to delete namespace " ++ ns ++ ": " ++ e]) ws := by
  intro l
  induction l with
  | nil => intro ws ns e h; simp at h
  | cons n l ih =>
    intro ws ns e hns hdel hnf
    rw [List.foldl_cons]
    rcases List.mem_cons.1 hns with h | h
    · subst h
      apply uninstall_fold_mono
      rw [hdel]
      dsimp only
      simp [hnf]
      
    · exact ih _ ns e h hdel hnf

/-- C10.  `Uninstall` always returns nil, whatever the deletions do; a
deletion failing with a non-NotFound error only contributes a printed
warning naming the namespace. -/
theorem uninstall_always_ok (cfg : Config) (deleteNs : String → Except String Unit) :
    (uninstall cfg deleteNs).2 = .ok ()
  ∧ (∀ ns e, ns ∈ uninstallNamespaces cfg → deleteNs ns = .error e →
      isNotFound e = false →
      ("Warning: failed to delete namespace " ++ ns ++ ": " ++ e)
        ∈ (uninstall cfg deleteNs).1) := by
  constructor
  · rfl
  · intro ns e hns hdel hnf
    exact uninstall_fold_warns deleteNs (uninstallNamespaces cfg) [] ns e hns hdel hnf

/-- Witness for C10: every deletion fails with a non-NotFound error yet
uninstall reports success, and the kyverno warning is collected. -/
theorem uninstall_always_ok_witness :
    (uninstall (defaultConfig "local" "direct") (fun _ => .error "forbidden")).2 = .ok ()
  ∧ ("Warning: failed to delete namespace " ++ "kyverno" ++ ": " ++ "forbidden")
      ∈ (uninstall (defaultConfig "local" "direct") (fun _ => .error "forbidden")).1 :=
  ⟨(uninstall_always_ok (defaultConfig "local" "direct") (fun _ => .error "forbidden")).1,
   (uninstall_always_ok (defaultConfig "local" "direct") (fun _ => .error "forbidden")).2
     "kyverno" "forbidden" (by decide) rfl rfl⟩

end Kubac
